import Mathlib

/-!
Shallow embedding of the compose event-stream parser and its aggregators
from plugins/module_utils/compose_v2.py, together with theorems settling
the frozen claims about that code.

Conventions of the embedding:
* Python strings are Lean String; character-level work happens on List Char.
* Python frozensets of status strings are Lean List String, with
  membership standing for the set-membership tests of the source.
* Whitespace is Char.isWhitespace (space, tab, CR, LF). Python whitespace
  also covers form feed and vertical tab; no claim depends on those.
* A regex match is a function returning Option of the captured groups,
  derived from the concrete regular expressions of the source, which on
  these patterns have no observable backtracking (all repeated classes are
  maximal-token runs).
* The dict lookup in ResourceType.from_docker_compose_event, which raises
  KeyError on an unknown key, is an Option; the parser propagates the none
  case, so a run that would raise in Python is modelled as a none result
  of parse_events.
* The warn_function callback is modelled by accumulating, in order, one
  ComposeWarning value per invocation; the Bool argument warnF records
  whether a callback was supplied at all.
-/

namespace ComposeV2

/-! ### Status vocabulary (compose_v2.py lines 23-58) -/

def DOCKER_STATUS_DONE : List String :=
  ["Started", "Healthy", "Exited", "Restarted", "Running", "Created",
   "Stopped", "Killed", "Removed", "Recreated", "Pulled"]

def DOCKER_STATUS_WORKING : List String :=
  ["Creating", "Starting", "Waiting", "Restarting", "Stopping", "Killing",
   "Removing", "Recreate", "Pulling"]

def DOCKER_STATUS_PULL : List String :=
  ["Pulled", "Pulling"]

def DOCKER_STATUS_ERROR : List String :=
  ["Error"]

def DOCKER_STATUS : List String :=
  DOCKER_STATUS_DONE ++ DOCKER_STATUS_WORKING ++ DOCKER_STATUS_PULL ++ DOCKER_STATUS_ERROR

/-! ### Resource types and events (compose_v2.py lines 61-83) -/

inductive ResourceType where
  | unknown
  | network
  | image
  | volume
  | container
  | service
deriving DecidableEq

def ResourceType.str : ResourceType → String
  | .unknown => "unknown"
  | .network => "network"
  | .image => "image"
  | .volume => "volume"
  | .container => "container"
  | .service => "service"

def ResourceType.from_docker_compose_event : String → Option ResourceType
  | "Network" => some .network
  | "Image" => some .image
  | "Volume" => some .volume
  | "Container" => some .container
  | _ => none

structure Event where
  resource_type : ResourceType
  resource_id : String
  status : Option String
  msg : Option String
deriving DecidableEq

/-- Membership test of an optional status in a status set, as Python
evaluates it: None is in no set. -/
def statusMem (status : Option String) (statuses : List String) : Bool :=
  match status with
  | some s => decide (s ∈ statuses)
  | none => false

/-! ### Character-level helpers for strip and the regexes -/

def notWS (c : Char) : Bool := !c.isWhitespace

def dropTrailingWS (cs : List Char) : List Char :=
  (cs.reverse.dropWhile Char.isWhitespace).reverse

/-- Python str.strip on both ends. -/
def pyStrip (cs : List Char) : List Char :=
  dropTrailingWS (cs.dropWhile Char.isWhitespace)

def pyStripStr (s : String) : String := String.mk (pyStrip s.data)

/-- Python str.splitlines restricted to LF separators; the parser skips
blank lines, so the extra Python behaviours (CR separators, dropping a
trailing empty segment) produce the same event sequence. -/
def splitlinesAux : List Char → List Char → List (List Char)
  | [], acc => [acc.reverse]
  | c :: cs, acc =>
      if c = '\n' then acc.reverse :: splitlinesAux cs []
      else splitlinesAux cs (c :: acc)

def splitlines (s : String) : List String :=
  (splitlinesAux s.data []).map String.mk

/-! ### The three match shapes (compose_v2.py lines 88-120) -/

def RESOURCE_TYPES : List String := ["Network", "Image", "Volume", "Container"]

/-- The resource-event regex: optional leading whitespace, a token that is
one of the four resource-type words, whitespace, a non-whitespace token as
resource id, whitespace, then free text captured from its first to its
last non-whitespace character. -/
def matchResourceEvent (line : String) : Option (String × String × String) :=
  let cs := line.data.dropWhile Char.isWhitespace
  let rt := cs.takeWhile notWS
  let rest := cs.dropWhile notWS
  if String.mk rt ∈ RESOURCE_TYPES ∧ rest ≠ [] then
    let rest1 := rest.dropWhile Char.isWhitespace
    let rid := rest1.takeWhile notWS
    let rest2 := rest1.dropWhile notWS
    if rid ≠ [] ∧ rest2 ≠ [] then
      let text := dropTrailingWS (rest2.dropWhile Char.isWhitespace)
      if text ≠ [] then some (String.mk rt, String.mk rid, String.mk text)
      else none
    else none
  else none

/-- Shared shape of the pull-event and error-event regexes: optional
leading whitespace, a non-whitespace token, whitespace, a token drawn from
the given status set, optional trailing whitespace. -/
def matchTwoTokens (statuses : List String) (line : String) : Option (String × String) :=
  let cs := line.data.dropWhile Char.isWhitespace
  let t1 := cs.takeWhile notWS
  let rest := cs.dropWhile notWS
  if t1 ≠ [] ∧ rest ≠ [] then
    let rest1 := rest.dropWhile Char.isWhitespace
    let t2 := rest1.takeWhile notWS
    let rest2 := rest1.dropWhile notWS
    if String.mk t2 ∈ statuses ∧ rest2.all Char.isWhitespace then
      some (String.mk t1, String.mk t2)
    else none
  else none

def matchPullEvent (line : String) : Option (String × String) :=
  matchTwoTokens DOCKER_STATUS_PULL line

def matchErrorEvent (line : String) : Option (String × String) :=
  matchTwoTokens DOCKER_STATUS_ERROR line

/-! ### The parser (compose_v2.py lines 123-209) -/

def _DRY_RUN_MARKER : String := "DRY-RUN MODE -"

inductive ComposeWarning where
  | missingDryRunMarker (line : String)
  | cannotParse (line : String)
deriving DecidableEq

structure ParseState where
  events : List Event
  error_event : Option Event
  warnings : List ComposeWarning
deriving DecidableEq

/-- The continuation update of the pending error event: the line is joined
onto the existing message with a newline, or becomes the message. -/
def continue_error_event (ev : Event) (line : String) : Event :=
  ⟨ev.resource_type, ev.resource_id, ev.status,
    some (match ev.msg with
          | some m => m ++ "\n" ++ line
          | none => line)⟩

/-- Python events[-1] = e: replace the last element; fails on an empty
list, as the corresponding IndexError would. -/
def setLast (l : List Event) (e : Event) : Option (List Event) :=
  if l = [] then none else some (l.dropLast ++ [e])

/-- The ordered chain of match attempts applied to one (already stripped,
already dry-run-adjusted) line: resource event, pull event, error event,
continuation of a pending error event, bare error line, unparsable. -/
def matchChain (warnF : Bool) (st : ParseState) (line : String) : Option ParseState :=
  match matchResourceEvent line with
  | some (rt, rid, text) =>
      (ResourceType.from_docker_compose_event rt).map (fun rty =>
        let status : Option String := if text ∈ DOCKER_STATUS then some text else none
        let m : Option String := if text ∈ DOCKER_STATUS then none else some text
        let event : Event := ⟨rty, rid, status, m⟩
        ⟨st.events ++ [event],
         if statusMem status DOCKER_STATUS_ERROR then some event else none,
         st.warnings⟩)
  | none =>
  match matchPullEvent line with
  | some (svc, status) =>
      some ⟨st.events ++ [⟨ResourceType.service, svc, some status, none⟩], none, st.warnings⟩
  | none =>
  match matchErrorEvent line with
  | some (rid, status) =>
      let event : Event := ⟨ResourceType.unknown, rid, some status, none⟩
      some ⟨st.events ++ [event], some event, st.warnings⟩
  | none =>
  match st.error_event with
  | some ev =>
      let ev2 := continue_error_event ev line
      (setLast st.events ev2).map (fun evs => ⟨evs, some ev2, st.warnings⟩)
  | none =>
  if "Error ".data.isPrefixOf line.data then
    let event : Event := ⟨ResourceType.unknown, "", some "Error", some line⟩
    some ⟨st.events ++ [event], some event, st.warnings⟩
  else if warnF then
    some ⟨st.events, none, st.warnings ++ [ComposeWarning.cannotParse line]⟩
  else some st

/-- Processing of one raw line: strip, skip blank lines, dry-run marker
handling, then the match chain. -/
def processLine (dryRun warnF : Bool) (st : ParseState) (raw : String) : Option ParseState :=
  let line := pyStripStr raw
  if line = "" then some st
  else if dryRun then
    if _DRY_RUN_MARKER.data.isPrefixOf line.data then
      matchChain warnF st
        (String.mk ((line.data.drop _DRY_RUN_MARKER.data.length).dropWhile Char.isWhitespace))
    else if st.error_event = none ∧ warnF then
      matchChain warnF
        ⟨st.events, st.error_event, st.warnings ++ [ComposeWarning.missingDryRunMarker line]⟩
        line
    else matchChain warnF st line
  else matchChain warnF st line

def parse_events_lines (dryRun warnF : Bool) (lines : List String) : Option ParseState :=
  lines.foldlM (processLine dryRun warnF) ⟨[], none, []⟩

def parse_events (stderr : String) (dryRun warnF : Bool) :
    Option (List Event × List ComposeWarning) :=
  (parse_events_lines dryRun warnF (splitlines stderr)).map
    (fun st => (st.events, st.warnings))

/-! ### Aggregators (compose_v2.py lines 212-277) -/

def has_changes (events : List Event) : Bool :=
  events.any (fun ev => statusMem ev.status DOCKER_STATUS_WORKING)

/-- emit_warnings with the warn_function callback modelled as the list of
strings sent to it, in order. -/
def emit_warnings (events : List Event) : List String :=
  events.filterMap (fun ev =>
    match ev.status, ev.msg with
    | none, some m =>
        some ("Docker compose: " ++ ev.resource_type.str ++ " " ++ ev.resource_id ++ ": " ++ m)
    | _, _ => none)

def is_failed (events : List Event) (rc : Int) : Bool :=
  if rc ≠ 0 then true
  else events.any (fun ev => statusMem ev.status DOCKER_STATUS_ERROR)

/-- The character class shlex.quote leaves unquoted: ASCII word characters
and the punctuation of its safe set. -/
def shlexSafe (c : Char) : Bool :=
  c.isAlpha || c.isDigit || ['_', '@', '%', '+', '=', ':', ',', '.', '/', '-'].contains c

def singleQuote : Char := '\x27'

/-- shlex.quote: empty becomes a pair of single quotes; an all-safe string
is returned unchanged; otherwise wrap in single quotes, each embedded
single quote rendered as quote, double-quoted quote, quote. -/
def shlex_quote (s : String) : String :=
  if s = "" then String.mk [singleQuote, singleQuote]
  else if s.data.all shlexSafe then s
  else String.mk ([singleQuote] ++
    (s.data.map (fun c =>
      if c = singleQuote then [singleQuote, '\x22', singleQuote, '\x22', singleQuote]
      else [c])).flatten ++ [singleQuote])

/-- The message built inside the loop of update_failed for one event whose
status is in the ERROR set. The None fallback for the status placeholder
mirrors Python str.format rendering None; it is unreachable for events
selected by the ERROR membership test. -/
def update_failed_message (ev : Event) : String :=
  (if ev.resource_type = ResourceType.unknown then
    (if ev.resource_id = "" then "General error: "
     else "Error when processing " ++ ev.resource_id ++ ": ")
   else "Error when processing " ++ ev.resource_type.str ++ " " ++ ev.resource_id ++ ": ")
  ++ (match ev.msg with
      | some m => m
      | none =>
        match ev.status with
        | some s => s
        | none => "None")

/-- The result dict, restricted to the keys update_failed touches; a none
field is an absent key. -/
structure ComposeResult where
  failed : Option Bool
  msg : Option String
  cmd : Option String
  stdout : Option String
  stderr : Option String
  rc : Option Int
deriving DecidableEq

/-- update_failed: the returned Bool is the Python return value; the
returned ComposeResult is the dict after the call. -/
def update_failed (result : ComposeResult) (events : List Event) (args : List String)
    (stdout stderr : String) (rc : Int) (cli : String) : Bool × ComposeResult :=
  let errors := events.filterMap (fun ev =>
    if statusMem ev.status DOCKER_STATUS_ERROR then some (update_failed_message ev) else none)
  if errors = [] ∧ rc = 0 then (false, result)
  else
    let errors := if errors = [] then ["Return code " ++ toString rc ++ " is non-zero"] else errors
    (true,
      { result with
        failed := some true,
        msg := some (String.intercalate "\n" errors),
        cmd := some (String.intercalate " " (([cli] ++ args).map shlex_quote)),
        stdout := some stdout,
        stderr := some stderr,
        rc := some rc })

/-- The failure message the specification prescribes for one ERROR-status
event, written from the words of the claim: a prefix chosen by resource
type and id, then the message of the event if present, else its status.
Compared against update_failed_message from the source. -/
def spec_error_message (ev : Event) : String :=
  (if ev.resource_type = ResourceType.unknown ∧ ev.resource_id = "" then "General error: "
   else if ev.resource_type = ResourceType.unknown then
     "Error when processing " ++ ev.resource_id ++ ": "
   else "Error when processing " ++ ev.resource_type.str ++ " " ++ ev.resource_id ++ ": ")
  ++ (match ev.msg with
      | some m => m
      | none =>
        match ev.status with
        | some s => s
        | none => "None")

/-- The invariant carried through the line loop: when an error event is
pending the event list is nonempty (so replacing its last element cannot
fail), and every event so far carries a status or a message. -/
def StInv (st : ParseState) : Prop :=
  (st.error_event.isSome = true → st.events ≠ []) ∧
  ∀ ev ∈ st.events, ev.status ≠ none ∨ ev.msg ≠ none

end ComposeV2

namespace ComposeV2

/-! ### Helper lemmas about the match chain -/

theorem matchResourceEvent_mem {line : String} {rt rid text : String}
    (h : matchResourceEvent line = some (rt, rid, text)) : rt ∈ RESOURCE_TYPES := by
  simp only [matchResourceEvent] at h
  split at h
  case isTrue hg =>
    split at h
    case isTrue hg2 =>
      split at h
      case isTrue hg3 =>
        obtain ⟨h1, h2, h3⟩ := Prod.mk.injEq .. ▸ (Option.some.injEq .. ▸ h)
        exact h1 ▸ hg.1
      case isFalse => exact absurd h (by simp)
    case isFalse => exact absurd h (by simp)
  case isFalse => exact absurd h (by simp)

theorem from_docker_compose_event_total {rt : String} (h : rt ∈ RESOURCE_TYPES) :
    ∃ rty, ResourceType.from_docker_compose_event rt = some rty := by
  simp only [RESOURCE_TYPES, List.mem_cons, List.not_mem_nil, or_false] at h
  rcases h with h | h | h | h <;> subst h
  · exact ⟨ResourceType.network, rfl⟩
  · exact ⟨ResourceType.image, rfl⟩
  · exact ⟨ResourceType.volume, rfl⟩
  · exact ⟨ResourceType.container, rfl⟩

theorem matchChain_resource {warnF : Bool} {st : ParseState} {line rt rid text : String}
    {rty : ResourceType}
    (h1 : matchResourceEvent line = some (rt, rid, text))
    (h2 : ResourceType.from_docker_compose_event rt = some rty) :
    matchChain warnF st line =
      some (if text ∈ DOCKER_STATUS then
        ⟨st.events ++ [⟨rty, rid, some text, none⟩],
         if text ∈ DOCKER_STATUS_ERROR then some ⟨rty, rid, some text, none⟩ else none,
         st.warnings⟩
      else ⟨st.events ++ [⟨rty, rid, none, some text⟩], none, st.warnings⟩) := by
  unfold matchChain
  rw [h1]
  simp only [h2, Option.map_some]
  by_cases hs : text ∈ DOCKER_STATUS
  · simp only [hs, if_true, statusMem, decide_eq_true_eq]
    by_cases he : text ∈ DOCKER_STATUS_ERROR <;> simp [he]
  · simp [hs, statusMem]

theorem matchChain_pull {warnF : Bool} {st : ParseState} {line svc status : String}
    (h1 : matchResourceEvent line = none)
    (h2 : matchPullEvent line = some (svc, status)) :
    matchChain warnF st line =
      some ⟨st.events ++ [⟨ResourceType.service, svc, some status, none⟩], none, st.warnings⟩ := by
  unfold matchChain
  rw [h1, h2]

theorem matchChain_error {warnF : Bool} {st : ParseState} {line rid status : String}
    (h1 : matchResourceEvent line = none)
    (h2 : matchPullEvent line = none)
    (h3 : matchErrorEvent line = some (rid, status)) :
    matchChain warnF st line =
      some ⟨st.events ++ [⟨ResourceType.unknown, rid, some status, none⟩],
            some ⟨ResourceType.unknown, rid, some status, none⟩, st.warnings⟩ := by
  unfold matchChain
  rw [h1, h2, h3]

theorem matchChain_continuation {warnF : Bool} {st : ParseState} {line : String} {ev : Event}
    (h1 : matchResourceEvent line = none)
    (h2 : matchPullEvent line = none)
    (h3 : matchErrorEvent line = none)
    (h4 : st.error_event = some ev) :
    matchChain warnF st line =
      (setLast st.events (continue_error_event ev line)).map
        (fun evs => ⟨evs, some (continue_error_event ev line), st.warnings⟩) := by
  unfold matchChain
  rw [h1, h2, h3, h4]

theorem matchChain_bare_error {warnF : Bool} {st : ParseState} {line : String}
    (h1 : matchResourceEvent line = none)
    (h2 : matchPullEvent line = none)
    (h3 : matchErrorEvent line = none)
    (h4 : st.error_event = none)
    (h5 : "Error ".data.isPrefixOf line.data = true) :
    matchChain warnF st line =
      some ⟨st.events ++ [⟨ResourceType.unknown, "", some "Error", some line⟩],
            some ⟨ResourceType.unknown, "", some "Error", some line⟩, st.warnings⟩ := by
  unfold matchChain
  rw [h1, h2, h3, h4]
  simp [h5]

theorem matchChain_unmatched {warnF : Bool} {st : ParseState} {line : String}
    (h1 : matchResourceEvent line = none)
    (h2 : matchPullEvent line = none)
    (h3 : matchErrorEvent line = none)
    (h4 : st.error_event = none)
    (h5 : "Error ".data.isPrefixOf line.data = false) :
    matchChain warnF st line =
      some ⟨st.events, none,
            st.warnings ++ if warnF then [ComposeWarning.cannotParse line] else []⟩ := by
  unfold matchChain
  rw [h1, h2, h3, h4]
  simp only [h5, Bool.false_eq_true, if_false]
  cases warnF
  · cases st
    simp_all
  · simp

/-! ### Parser invariants -/

theorem matchChain_preserves (warnF : Bool) (st : ParseState) (line : String)
    (hst : StInv st) :
    ∃ st2, matchChain warnF st line = some st2 ∧ StInv st2 := by
  obtain ⟨hne, hok⟩ := hst
  have happend : ∀ (e : Event), e.status ≠ none ∨ e.msg ≠ none →
      ∀ ev ∈ st.events ++ [e], ev.status ≠ none ∨ ev.msg ≠ none := by
    intro e he ev hev
    rcases List.mem_append.mp hev with h | h
    · exact hok ev h
    · rw [List.mem_singleton.mp h]; exact he
  rcases hR : matchResourceEvent line with _ | ⟨rt, rid, text⟩
  · rcases hP : matchPullEvent line with _ | ⟨svc, status⟩
    · rcases hE : matchErrorEvent line with _ | ⟨rid, status⟩
      · rcases hEv : st.error_event with _ | ev
        · by_cases hpre : "Error ".data.isPrefixOf line.data
          · refine ⟨_, matchChain_bare_error hR hP hE hEv hpre, ?_, ?_⟩
            · intro _; simp
            · exact happend _ (by simp)
          · refine ⟨_, matchChain_unmatched hR hP hE hEv (Bool.eq_false_iff.mpr hpre), ?_, ?_⟩
            · intro h; simp at h
            · exact hok
        · have hnonempty : st.events ≠ [] := hne (by rw [hEv]; rfl)
          have hsetLast : setLast st.events (continue_error_event ev line) =
              some (st.events.dropLast ++ [continue_error_event ev line]) := by
            unfold setLast
            rw [if_neg hnonempty]
          refine ⟨_, by rw [matchChain_continuation hR hP hE hEv, hsetLast]; rfl, ?_, ?_⟩
          · intro _; simp
          · intro e he
            rcases List.mem_append.mp he with h | h
            · exact hok e (List.mem_of_mem_dropLast h)
            · rw [List.mem_singleton.mp h]
              right
              simp [continue_error_event]
      · refine ⟨_, matchChain_error hR hP hE, ?_, ?_⟩
        · intro _; simp
        · exact happend _ (by simp)
    · refine ⟨_, matchChain_pull hR hP, ?_, ?_⟩
      · intro h; simp at h
      · exact happend _ (by simp)
  · obtain ⟨rty, hrty⟩ := from_docker_compose_event_total (matchResourceEvent_mem hR)
    refine ⟨_, matchChain_resource hR hrty, ?_⟩
    by_cases hs : text ∈ DOCKER_STATUS
    · rw [if_pos hs]
      constructor
      · intro _; simp
      · exact happend _ (by simp)
    · rw [if_neg hs]
      constructor
      · intro h; simp at h
      · exact happend _ (by simp)

theorem processLine_preserves (dryRun warnF : Bool) (st : ParseState) (raw : String)
    (hst : StInv st) :
    ∃ st2, processLine dryRun warnF st raw = some st2 ∧ StInv st2 := by
  unfold processLine
  by_cases hblank : pyStripStr raw = ""
  · exact ⟨st, by simp [hblank], hst⟩
  · simp only [hblank, if_false, if_neg hblank]
    cases dryRun
    · simpa using matchChain_preserves warnF st (pyStripStr raw) hst
    · simp only [if_true]
      by_cases hmark : _DRY_RUN_MARKER.data.isPrefixOf (pyStripStr raw).data
      · simp only [hmark, if_true]
        exact matchChain_preserves warnF st _ hst
      · simp only [hmark, Bool.false_eq_true, if_false]
        by_cases hwarn : st.error_event = none ∧ warnF = true
        · simp only [if_pos hwarn]
          exact matchChain_preserves warnF _ _ ⟨fun h => hst.1 h, hst.2⟩
        · simp only [if_neg hwarn]
          exact matchChain_preserves warnF st _ hst

theorem parse_events_lines_preserves (dryRun warnF : Bool) (lines : List String)
    (st : ParseState) (hst : StInv st) :
    ∃ st2, List.foldlM (processLine dryRun warnF) st lines = some st2 ∧ StInv st2 := by
  induction lines generalizing st with
  | nil => exact ⟨st, rfl, hst⟩
  | cons line rest ih =>
    obtain ⟨st1, h1, hinv1⟩ := processLine_preserves dryRun warnF st line hst
    obtain ⟨st2, h2, hinv2⟩ := ih st1 hinv1
    exact ⟨st2, by rw [List.foldlM_cons, h1]; exact h2, hinv2⟩

/-! ### Helper lemmas for the aggregators -/

theorem filterMap_if_eq_map_filter (p : Event → Bool) (f : Event → String) (l : List Event) :
    (l.filterMap fun ev => if p ev then some (f ev) else none) = (l.filter p).map f := by
  induction l with
  | nil => rfl
  | cons ev rest ih =>
    by_cases h : p ev <;> simp [List.filterMap_cons, List.filter_cons, h, ih]

theorem update_failed_message_eq_spec (ev : Event) :
    update_failed_message ev = spec_error_message ev := by
  unfold update_failed_message spec_error_message
  by_cases h1 : ev.resource_type = ResourceType.unknown
  · by_cases h2 : ev.resource_id = "" <;> simp [h1, h2]
  · simp [h1]

theorem done_not_working : ∀ s ∈ DOCKER_STATUS_DONE, s ∉ DOCKER_STATUS_WORKING := by decide

/-! ### Claim theorems -/

/-- C1 counterexample: the four status sets are not pairwise disjoint:
Pulled lies in both DONE and PULL, and Pulling lies in both WORKING and
PULL. -/
theorem c1_counterexample :
    "Pulled" ∈ DOCKER_STATUS_DONE ∧ "Pulled" ∈ DOCKER_STATUS_PULL ∧
    "Pulling" ∈ DOCKER_STATUS_WORKING ∧ "Pulling" ∈ DOCKER_STATUS_PULL := by
  decide

/-- C1 (amended): DONE, WORKING and ERROR are pairwise disjoint and each
is disjoint from nothing further; the PULL set overlaps DONE exactly in
Pulled and WORKING exactly in Pulling; and the union of the four sets is
exactly DOCKER_STATUS, the vocabulary used by the membership tests of the
parser. -/
theorem c1_status_sets :
    DOCKER_STATUS_DONE.inter DOCKER_STATUS_WORKING = [] ∧
    DOCKER_STATUS_DONE.inter DOCKER_STATUS_ERROR = [] ∧
    DOCKER_STATUS_WORKING.inter DOCKER_STATUS_ERROR = [] ∧
    DOCKER_STATUS_PULL.inter DOCKER_STATUS_ERROR = [] ∧
    DOCKER_STATUS_PULL.inter DOCKER_STATUS_DONE = ["Pulled"] ∧
    DOCKER_STATUS_PULL.inter DOCKER_STATUS_WORKING = ["Pulling"] ∧
    ∀ s : String, s ∈ DOCKER_STATUS ↔
      (s ∈ DOCKER_STATUS_DONE ∨ s ∈ DOCKER_STATUS_WORKING ∨
       s ∈ DOCKER_STATUS_PULL ∨ s ∈ DOCKER_STATUS_ERROR) := by
  refine ⟨by decide, by decide, by decide, by decide, by decide, by decide, ?_⟩
  intro s
  simp [DOCKER_STATUS, List.mem_append, or_assoc]

/-- C2 counterexample: with a pending error event from the line
"x Error", the following line "Error detail here", which begins with the
literal "Error " yet matches no regex, is folded into the pending event as
continuation text; no new unknown-type event is appended, so the parse of
the two lines yields one event, not two. -/
theorem c2_counterexample :
    parse_events "x Error\nError detail here" false false =
      some ([⟨ResourceType.unknown, "x", some "Error", some "Error detail here"⟩], []) ∧
    (parse_events "x Error\nError detail here" false false).map (fun p => p.1.length) =
      some 1 := by
  decide

/-- C2 (amended): after the three regex shapes fail, a line is treated as
continuation text for a pending error event before the bare-error prefix
test is made, even when the line begins with "Error "; the bare-error
branch, which appends a new unknown-type event, is reached only when no
error event is pending. -/
theorem c2_match_order :
    (∀ (warnF : Bool) (st : ParseState) (line : String) (ev : Event),
      matchResourceEvent line = none → matchPullEvent line = none →
      matchErrorEvent line = none → st.error_event = some ev →
      matchChain warnF st line =
        (setLast st.events (continue_error_event ev line)).map
          (fun evs => ⟨evs, some (continue_error_event ev line), st.warnings⟩)) ∧
    (∀ (warnF : Bool) (st : ParseState) (line : String),
      matchResourceEvent line = none → matchPullEvent line = none →
      matchErrorEvent line = none → st.error_event = none →
      "Error ".data.isPrefixOf line.data = true →
      matchChain warnF st line =
        some ⟨st.events ++ [⟨ResourceType.unknown, "", some "Error", some line⟩],
              some ⟨ResourceType.unknown, "", some "Error", some line⟩, st.warnings⟩) :=
  ⟨fun _ _ _ _ h1 h2 h3 h4 => matchChain_continuation h1 h2 h3 h4,
   fun _ _ _ h1 h2 h3 h4 h5 => matchChain_bare_error h1 h2 h3 h4 h5⟩

/-- C2 witness: the continuation case of c2_match_order applied to the
pending error event of "x Error" and the line "Error detail here". -/
theorem c2_witness :
    matchChain false
      ⟨[⟨ResourceType.unknown, "x", some "Error", none⟩],
       some ⟨ResourceType.unknown, "x", some "Error", none⟩, []⟩ "Error detail here" =
      (setLast [⟨ResourceType.unknown, "x", some "Error", none⟩]
          (continue_error_event ⟨ResourceType.unknown, "x", some "Error", none⟩
            "Error detail here")).map
        (fun evs => ⟨evs,
          some (continue_error_event ⟨ResourceType.unknown, "x", some "Error", none⟩
            "Error detail here"), []⟩) :=
  c2_match_order.1 false
    ⟨[⟨ResourceType.unknown, "x", some "Error", none⟩],
     some ⟨ResourceType.unknown, "x", some "Error", none⟩, []⟩
    "Error detail here" ⟨ResourceType.unknown, "x", some "Error", none⟩
    (by decide) (by decide) (by decide) rfl

/-- C3: a line matching the resource-event pattern appends exactly one
event: when the captured trailing text lies in the status vocabulary the
event carries it as status with no message, otherwise the text becomes
the message and the status is absent; the pending-error marker is set
exactly when that status is the error status. -/
theorem c3_resource_event (warnF : Bool) (st : ParseState) (line rt rid text : String)
    (rty : ResourceType)
    (h1 : matchResourceEvent line = some (rt, rid, text))
    (h2 : ResourceType.from_docker_compose_event rt = some rty) :
    matchChain warnF st line =
      some (if text ∈ DOCKER_STATUS then
        ⟨st.events ++ [⟨rty, rid, some text, none⟩],
         if text ∈ DOCKER_STATUS_ERROR then some ⟨rty, rid, some text, none⟩ else none,
         st.warnings⟩
      else ⟨st.events ++ [⟨rty, rid, none, some text⟩], none, st.warnings⟩) :=
  matchChain_resource h1 h2

/-- C3 witness: a container line whose trailing text is not in the status
vocabulary produces one event with absent status and the text as its
message. -/
theorem c3_witness :
    matchChain false ⟨[], none, []⟩ "Container abc123 some custom message" =
      some ⟨[⟨ResourceType.container, "abc123", none, some "some custom message"⟩], none, []⟩ := by
  have h := c3_resource_event false ⟨[], none, []⟩ "Container abc123 some custom message"
    "Container" "abc123" "some custom message" ResourceType.container (by decide) rfl
  rw [h]
  decide

/-- C4: parse_events runs to completion on every input (so the modelled
KeyError and IndexError of the source are unreachable); the resource-type
lookup always succeeds on a token captured by the resource regex; and an
unmatched line with no pending error event leaves the event list untouched
and is reported only through the callback, when one is supplied. -/
theorem c4_total :
    (∀ (stderr : String) (dryRun warnF : Bool),
      (parse_events stderr dryRun warnF).isSome = true) ∧
    (∀ (line rt rid text : String), matchResourceEvent line = some (rt, rid, text) →
      ∃ rty, ResourceType.from_docker_compose_event rt = some rty) ∧
    (∀ (warnF : Bool) (st : ParseState) (line : String),
      matchResourceEvent line = none → matchPullEvent line = none →
      matchErrorEvent line = none → st.error_event = none →
      "Error ".data.isPrefixOf line.data = false →
      matchChain warnF st line =
        some ⟨st.events, none,
              st.warnings ++ if warnF then [ComposeWarning.cannotParse line] else []⟩) := by
  refine ⟨?_, ?_, ?_⟩
  · intro stderr dryRun warnF
    obtain ⟨st2, h2, _⟩ := parse_events_lines_preserves dryRun warnF (splitlines stderr)
      ⟨[], none, []⟩ ⟨by intro h; simp at h, by intro ev hev; simp at hev⟩
    simp [parse_events, parse_events_lines, h2]
  · intro line rt rid text h
    exact from_docker_compose_event_total (matchResourceEvent_mem h)
  · intro warnF st line h1 h2 h3 h4 h5
    exact matchChain_unmatched h1 h2 h3 h4 h5

/-- C4 witness: a full parse of an unparsable text completes, and the
unmatched branch only records a warning. -/
theorem c4_witness :
    (parse_events "some unparsable garbage" false true).isSome = true ∧
    matchChain true ⟨[], none, []⟩ "garbage" =
      some ⟨[], none, [] ++ if true then [ComposeWarning.cannotParse "garbage"] else []⟩ :=
  ⟨c4_total.1 "some unparsable garbage" false true,
   c4_total.2.2 true ⟨[], none, []⟩ "garbage" (by decide) (by decide) (by decide) rfl (by decide)⟩

/-- C5: update_failed returns no failure exactly when there is no
ERROR-status event and the return code is zero; with no ERROR-status event
and a non-zero return code it reports the single synthesized message; and
with ERROR-status events it reports, in order, one message per such event
formed as the specification prescribes, together with the shell-quoted
command line, stdout, stderr and the return code. -/
theorem c5_update_failed (result : ComposeResult) (events : List Event) (args : List String)
    (stdout stderr : String) (rc : Int) (cli : String) :
    ((events.filter fun ev => statusMem ev.status DOCKER_STATUS_ERROR) = [] → rc = 0 →
      update_failed result events args stdout stderr rc cli = (false, result)) ∧
    ((events.filter fun ev => statusMem ev.status DOCKER_STATUS_ERROR) = [] → rc ≠ 0 →
      update_failed result events args stdout stderr rc cli =
        (true,
          { result with
            failed := some true,
            msg := some ("Return code " ++ toString rc ++ " is non-zero"),
            cmd := some (String.intercalate " " (([cli] ++ args).map shlex_quote)),
            stdout := some stdout, stderr := some stderr, rc := some rc })) ∧
    ((events.filter fun ev => statusMem ev.status DOCKER_STATUS_ERROR) ≠ [] →
      update_failed result events args stdout stderr rc cli =
        (true,
          { result with
            failed := some true,
            msg := some (String.intercalate "\n"
              ((events.filter fun ev => statusMem ev.status DOCKER_STATUS_ERROR).map
                spec_error_message)),
            cmd := some (String.intercalate " " (([cli] ++ args).map shlex_quote)),
            stdout := some stdout, stderr := some stderr, rc := some rc })) := by
  have hmap := filterMap_if_eq_map_filter
    (fun ev => statusMem ev.status DOCKER_STATUS_ERROR) update_failed_message events
  have hfun : update_failed_message = spec_error_message := funext update_failed_message_eq_spec
  refine ⟨?_, ?_, ?_⟩
  · intro h1 h2
    simp [update_failed, hmap, h1, h2]
  · intro h1 h2
    simp [update_failed, hmap, h1, h2]
    rfl
  · intro h1
    have hmap2 : (events.filterMap fun ev =>
        if statusMem ev.status DOCKER_STATUS_ERROR then some (spec_error_message ev) else none) =
        (events.filter fun ev => statusMem ev.status DOCKER_STATUS_ERROR).map
          spec_error_message := by
      rw [← hfun]; exact hmap
    have hnn : (events.filter fun ev => statusMem ev.status DOCKER_STATUS_ERROR).map
        spec_error_message ≠ [] := by
      simpa using h1
    simp only [update_failed, hfun, hmap2]
    rw [if_neg (fun hc => hnn hc.1), if_neg hnn]

/-- C5 witness: no ERROR event and return code 1 yields the synthesized
single-message failure record. -/
theorem c5_witness :
    update_failed ⟨none, none, none, none, none, none⟩ [] ["up"] "o" "e" 1 "docker" =
      (true,
        { (⟨none, none, none, none, none, none⟩ : ComposeResult) with
          failed := some true,
          msg := some ("Return code " ++ toString (1 : Int) ++ " is non-zero"),
          cmd := some (String.intercalate " " ((["docker"] ++ ["up"]).map shlex_quote)),
          stdout := some "o", stderr := some "e", rc := some 1 }) :=
  (c5_update_failed ⟨none, none, none, none, none, none⟩ [] ["up"] "o" "e" 1 "docker").2.1
    rfl (by decide)

/-- C6 counterexample: for an event with absent status and present
message, the string sent to the sink carries the fixed prefix
"Docker compose: " and is therefore not the bare
resource-type resource-id message format the claim states. -/
theorem c6_counterexample :
    emit_warnings [⟨ResourceType.container, "abc", none, some "hello"⟩] =
      ["Docker compose: container abc: hello"] ∧
    emit_warnings [⟨ResourceType.container, "abc", none, some "hello"⟩] ≠
      ["container abc: hello"] := by
  decide

/-- C6 (amended): emit_warnings sends to the sink, for exactly those
events whose status is absent and whose message is present and in event
order, a warning of the form "Docker compose: " followed by resource
type, resource id and the message, and sends nothing for any other
event. -/
theorem c6_emit_warnings (events : List Event) :
    emit_warnings events =
      (events.filter fun ev => ev.status.isNone && ev.msg.isSome).map
        (fun ev => "Docker compose: " ++ ev.resource_type.str ++ " " ++
          ev.resource_id ++ ": " ++ ev.msg.getD "") := by
  induction events with
  | nil => rfl
  | cons ev rest ih =>
    rcases hs : ev.status with _ | s <;> rcases hm : ev.msg with _ | m <;>
      simp [emit_warnings, List.filter_cons, hs, hm, ← ih]

/-- C7 counterexample: under dry-run with a callback supplied and no
pending error event, the unmatched line "foobar" without the marker
invokes the callback twice, once for the missing marker and once as
unparsable, not exactly once. -/
theorem c7_counterexample :
    parse_events "foobar" true true =
      some ([], [ComposeWarning.missingDryRunMarker "foobar",
                 ComposeWarning.cannotParse "foobar"]) := by
  decide

/-- C7 (amended): under dry-run a line carrying the marker has it and the
following whitespace stripped before any matching, so the sample dry-run
line yields the network event; a non-blank line lacking the marker
records the missing-marker diagnostic exactly once if and only if no
error event is pending and a callback was supplied, and is afterwards
still processed by the normal match chain, which may report it once more
when it is unrecognized. -/
theorem c7_dry_run :
    (parse_events "DRY-RUN MODE - Network net1 Created" true false =
      some ([⟨ResourceType.network, "net1", some "Created", none⟩], [])) ∧
    (∀ (warnF : Bool) (st : ParseState) (raw : String),
      pyStripStr raw ≠ "" →
      _DRY_RUN_MARKER.data.isPrefixOf (pyStripStr raw).data = true →
      processLine true warnF st raw =
        matchChain warnF st
          (String.mk (((pyStripStr raw).data.drop
            _DRY_RUN_MARKER.data.length).dropWhile Char.isWhitespace))) ∧
    (∀ (warnF : Bool) (st : ParseState) (raw : String),
      pyStripStr raw ≠ "" →
      _DRY_RUN_MARKER.data.isPrefixOf (pyStripStr raw).data = false →
      processLine true warnF st raw =
        matchChain warnF
          (if st.error_event = none ∧ warnF = true then
            ⟨st.events, st.error_event,
             st.warnings ++ [ComposeWarning.missingDryRunMarker (pyStripStr raw)]⟩
          else st)
          (pyStripStr raw)) := by
  refine ⟨by decide, ?_, ?_⟩
  · intro warnF st raw hne hmark
    simp [processLine, hne, hmark]
  · intro warnF st raw hne hmark
    by_cases hcond : st.error_event = none ∧ warnF = true
    · simp [processLine, hne, hmark, hcond]
    · simp [processLine, hne, hmark, hcond]

/-- C7 witness: the marker-stripping case applied to the sample dry-run
line. -/
theorem c7_witness :
    processLine true false ⟨[], none, []⟩ "DRY-RUN MODE - Network net1 Created" =
      matchChain false ⟨[], none, []⟩
        (String.mk (((pyStripStr "DRY-RUN MODE - Network net1 Created").data.drop
          _DRY_RUN_MARKER.data.length).dropWhile Char.isWhitespace)) :=
  c7_dry_run.2.1 false ⟨[], none, []⟩ "DRY-RUN MODE - Network net1 Created"
    (by decide) (by decide)

/-- C8: has_changes is true exactly when some event carries a WORKING
status; it is false on the empty sequence and on any sequence of
DONE-status events. -/
theorem c8_has_changes (events : List Event) :
    (has_changes events = true ↔
      ∃ ev ∈ events, statusMem ev.status DOCKER_STATUS_WORKING = true) ∧
    has_changes [] = false ∧
    ((∀ ev ∈ events, ∃ s, ev.status = some s ∧ s ∈ DOCKER_STATUS_DONE) →
      has_changes events = false) := by
  refine ⟨List.any_eq_true, rfl, ?_⟩
  intro h
  rw [has_changes, List.any_eq_false]
  intro ev hev
  obtain ⟨s, hst, hdone⟩ := h ev hev
  rw [hst]
  simpa [statusMem] using done_not_working s hdone

/-- C8 witness: an all-DONE sequence has no changes. -/
theorem c8_witness :
    has_changes [⟨ResourceType.container, "c1", some "Started", none⟩,
                 ⟨ResourceType.image, "i1", some "Pulled", none⟩] = false :=
  (c8_has_changes _).2.2 (by
    intro ev hev
    simp only [List.mem_cons, List.not_mem_nil, or_false] at hev
    rcases hev with h | h <;> subst h
    · exact ⟨"Started", rfl, by decide⟩
    · exact ⟨"Pulled", rfl, by decide⟩)

/-- C9: every event produced by a completed parse has its status present
or its message present; and the continuation step only replaces the last
event by the continuation update of the pending error event, which keeps
its resource type, resource id and status unchanged and only extends its
message. -/
theorem c9_event_invariant :
    (∀ (stderr : String) (dryRun warnF : Bool) (evs : List Event)
        (ws : List ComposeWarning),
      parse_events stderr dryRun warnF = some (evs, ws) →
      ∀ ev ∈ evs, ev.status ≠ none ∨ ev.msg ≠ none) ∧
    (∀ (warnF : Bool) (st st2 : ParseState) (line : String) (ev : Event),
      st.error_event = some ev →
      matchResourceEvent line = none → matchPullEvent line = none →
      matchErrorEvent line = none →
      matchChain warnF st line = some st2 →
      st2.events = st.events.dropLast ++ [continue_error_event ev line] ∧
      st2.error_event = some (continue_error_event ev line) ∧
      (continue_error_event ev line).resource_type = ev.resource_type ∧
      (continue_error_event ev line).resource_id = ev.resource_id ∧
      (continue_error_event ev line).status = ev.status ∧
      (continue_error_event ev line).msg =
        some (match ev.msg with | some m => m ++ "\n" ++ line | none => line)) := by
  constructor
  · intro stderr dryRun warnF evs ws h
    obtain ⟨st2, h2, hinv⟩ := parse_events_lines_preserves dryRun warnF (splitlines stderr)
      ⟨[], none, []⟩ ⟨by intro h3; simp at h3, by intro ev hev; simp at hev⟩
    rw [parse_events, parse_events_lines, h2] at h
    simp only [Option.map_some', Option.some.injEq, Prod.mk.injEq] at h
    exact h.1 ▸ hinv.2
  · intro warnF st st2 line ev h0 h1 h2 h3 h4
    rw [matchChain_continuation h1 h2 h3 h0] at h4
    unfold setLast at h4
    by_cases hne : st.events = []
    · rw [if_pos hne] at h4
      simp at h4
    · rw [if_neg hne] at h4
      simp only [Option.map_some', Option.some.injEq] at h4
      rw [← h4]
      exact ⟨rfl, rfl, rfl, rfl, rfl, rfl⟩

/-- C9 witness: the continuation of the pending error event of "x Error"
by the line "more detail" replaces the last event, keeping type, id and
status. -/
theorem c9_witness :
    (⟨[⟨ResourceType.unknown, "x", some "Error", some "more detail"⟩],
      some ⟨ResourceType.unknown, "x", some "Error", some "more detail"⟩,
      []⟩ : ParseState).events =
      ([⟨ResourceType.unknown, "x", some "Error", none⟩] : List Event).dropLast ++
        [continue_error_event ⟨ResourceType.unknown, "x", some "Error", none⟩ "more detail"] ∧
    (⟨[⟨ResourceType.unknown, "x", some "Error", some "more detail"⟩],
      some ⟨ResourceType.unknown, "x", some "Error", some "more detail"⟩,
      []⟩ : ParseState).error_event =
      some (continue_error_event ⟨ResourceType.unknown, "x", some "Error", none⟩ "more detail") ∧
    (continue_error_event ⟨ResourceType.unknown, "x", some "Error", none⟩
        "more detail").resource_type = ResourceType.unknown ∧
    (continue_error_event ⟨ResourceType.unknown, "x", some "Error", none⟩
        "more detail").resource_id = "x" ∧
    (continue_error_event ⟨ResourceType.unknown, "x", some "Error", none⟩
        "more detail").status = some "Error" ∧
    (continue_error_event ⟨ResourceType.unknown, "x", some "Error", none⟩
        "more detail").msg = some "more detail" :=
  c9_event_invariant.2 false
    ⟨[⟨ResourceType.unknown, "x", some "Error", none⟩],
     some ⟨ResourceType.unknown, "x", some "Error", none⟩, []⟩
    ⟨[⟨ResourceType.unknown, "x", some "Error", some "more detail"⟩],
     some ⟨ResourceType.unknown, "x", some "Error", some "more detail"⟩, []⟩
    "more detail" ⟨ResourceType.unknown, "x", some "Error", none⟩
    rfl (by decide) (by decide) (by decide) (by decide)

/-- C10: update_failed returns true exactly when is_failed does, and when
it returns false it leaves the result dict unchanged. -/
theorem c10_update_failed_is_failed (result : ComposeResult) (events : List Event)
    (args : List String) (stdout stderr : String) (rc : Int) (cli : String) :
    (update_failed result events args stdout stderr rc cli).1 = is_failed events rc ∧
    ((update_failed result events args stdout stderr rc cli).1 = false →
      (update_failed result events args stdout stderr rc cli).2 = result) := by
  have hkey : ((events.filterMap fun ev =>
      if statusMem ev.status DOCKER_STATUS_ERROR then some (update_failed_message ev)
      else none) = []) ↔
      (events.any fun ev => statusMem ev.status DOCKER_STATUS_ERROR) = false := by
    rw [List.filterMap_eq_nil_iff, List.any_eq_false]
    constructor
    · intro h ev hev
      have h2 := h ev hev
      by_cases hs : statusMem ev.status DOCKER_STATUS_ERROR = true
      · rw [if_pos hs] at h2
        exact absurd h2 (by simp)
      · exact hs
    · intro h ev hev
      rw [if_neg (h ev hev)]
  by_cases herr : (events.filterMap fun ev =>
      if statusMem ev.status DOCKER_STATUS_ERROR then some (update_failed_message ev)
      else none) = []
  · by_cases hrc : rc = 0
    · constructor
      · simp [update_failed, is_failed, herr, hrc, hkey.mp herr]
      · intro _
        simp [update_failed, herr, hrc]
    · constructor
      · simp [update_failed, is_failed, herr, hrc]
      · intro hfalse
        rw [update_failed] at hfalse
        simp [herr, hrc] at hfalse
  · have hany : (events.any fun ev => statusMem ev.status DOCKER_STATUS_ERROR) = true := by
      rcases Bool.eq_false_or_eq_true
        (events.any fun ev => statusMem ev.status DOCKER_STATUS_ERROR) with h | h
      · exact h
      · exact absurd (hkey.mpr h) herr
    constructor
    · simp only [update_failed, is_failed]
      rw [if_neg (fun hc => herr hc.1)]
      by_cases hrc : rc ≠ 0 <;> simp [hrc, hany]
    · intro hfalse
      rw [update_failed] at hfalse
      simp only at hfalse
      rw [if_neg (fun hc => herr hc.1)] at hfalse
      exact absurd hfalse (by simp)

/-- C10 witness: with one ERROR event and return code zero, update_failed
returns true in agreement with is_failed. -/
theorem c10_witness :
    (update_failed ⟨none, none, none, none, none, none⟩
        [⟨ResourceType.unknown, "x", some "Error", none⟩] [] "" "" 0 "docker").1 =
      is_failed [⟨ResourceType.unknown, "x", some "Error", none⟩] 0 ∧
    ((update_failed ⟨none, none, none, none, none, none⟩
        [⟨ResourceType.unknown, "x", some "Error", none⟩] [] "" "" 0 "docker").1 = false →
      (update_failed ⟨none, none, none, none, none, none⟩
        [⟨ResourceType.unknown, "x", some "Error", none⟩] [] "" "" 0 "docker").2 =
        ⟨none, none, none, none, none, none⟩) :=
  c10_update_failed_is_failed ⟨none, none, none, none, none, none⟩
    [⟨ResourceType.unknown, "x", some "Error", none⟩] [] "" "" 0 "docker"

end ComposeV2
